import Mathlib

/-!
Shallow embedding of `src/cli/games/space_invaders/game.py`
(`SpaceInvadersGame`): the environment factory `_make_env`, the trainer
`train`, the evaluator `evaluate`, the validator `validate_model`, and the
staking bridge `stake`.  External collaborators (gymnasium, stable-baselines3,
the NEAR wallet and the `stake_on_game` coroutine) are modelled abstractly:
environments become a symbolic description of the wrapper pipeline, model
loading becomes a fallible outcome supplied by the caller, and the episode
dynamics of the simulator become a per-step reward list per episode.
-/

namespace SpaceInvaders

/-- Render mode passed to `gym.make` (`render_mode=...`). -/
inductive RenderMode
  | human
  | rgb_array
deriving DecidableEq, Repr

/-- The gymnasium / SB3 wrappers applied by the adapter, with the
constructor arguments the source passes to each one. -/
inductive Wrapper
  | noopReset (noop_max : Nat)
  | maxAndSkip (skip : Nat)
  | episodicLife
  | fireReset
  | clipReward
  | resizeObservation (h w : Nat)
  | grayscaleObservation (keep_dim : Bool)
  | frameStackObservation (n : Nat)
  | recordVideo (dir : String)
deriving DecidableEq, Repr

/-- A wrapped environment: base id, render mode, frameskip argument, and the
wrapper pipeline (innermost wrapper first, outermost last). -/
structure Env where
  env_id : String
  render_mode : RenderMode
  frameskip : Option Nat
  wrappers : List Wrapper
deriving DecidableEq, Repr

/-- `SpaceInvadersGame.name`. -/
def gameName : String := "space_invaders"

/-- `SpaceInvadersGame.env_id`. -/
def envId : String := "ALE/SpaceInvaders-v5"

/-- `SpaceInvadersGame.score_range`: fixed at (0, 1000). -/
def score_range : ℚ × ℚ := (0, 1000)

/-- `SpaceInvadersGame._make_env(render, record)` (game.py lines 83-109):
human rendering iff `render`; Atari wrappers, then resize → grayscale →
frame-stack; `RecordVideo` appended only when `record` and not `render`. -/
def _make_env (render : Bool) (record : Bool) : Env :=
  let render_mode := if render then RenderMode.human else RenderMode.rgb_array
  let ws : List Wrapper :=
    [Wrapper.noopReset 30, Wrapper.maxAndSkip 4, Wrapper.episodicLife,
     Wrapper.fireReset, Wrapper.clipReward,
     Wrapper.resizeObservation 84 84, Wrapper.grayscaleObservation false,
     Wrapper.frameStackObservation 4]
  let ws := if record && !render then ws ++ [Wrapper.recordVideo "videos/training"] else ws
  { env_id := envId, render_mode := render_mode, frameskip := some 4, wrappers := ws }

/-- Whether a `RecordVideo` wrapper is attached anywhere in the pipeline. -/
def Env.isRecording (e : Env) : Bool :=
  e.wrappers.any fun w =>
    match w with
    | .recordVideo _ => true
    | _ => false

/-- Whether the environment renders to a human-visible window. -/
def Env.isHumanRendering (e : Env) : Bool :=
  match e.render_mode with
  | .human => true
  | .rgb_array => false

/-- Raw observation shape of `ALE/SpaceInvaders-v5` (H × W × RGB). -/
def base_obs_shape : List Nat := [210, 160, 3]

/-- Effect of one wrapper on the observation shape.  Only the observation
wrappers change it; the episode-shaping and recording wrappers are
shape-preserving. -/
def wrapperShape (s : List Nat) : Wrapper → List Nat
  | .resizeObservation h w =>
      match s with
      | [_, _, c] => [h, w, c]
      | [_, _] => [h, w]
      | other => other
  | .grayscaleObservation keep_dim =>
      match s with
      | [h, w, _] => if keep_dim then [h, w, 1] else [h, w]
      | other => other
  | .frameStackObservation n => n :: s
  | _ => s

/-- Observation shape produced by a wrapped environment. -/
def obs_shape (e : Env) : List Nat :=
  e.wrappers.foldl wrapperShape base_obs_shape

/-- The single environment built by `SpaceInvadersGame.evaluate`
(game.py line 174): `self._make_env(record)` passes `record` positionally,
so it lands in `_make_env`'s `render` parameter and `_make_env`'s own
`record` parameter keeps its default `False`. -/
def evaluate_env (record : Bool) : Env := _make_env record false

/-- `EvaluationResult` (from `cli.games.base`), as filled in by
`SpaceInvadersGame.evaluate`.  Python floats are modelled as rationals;
`best_episode_score` starts at `float(-inf)`, modelled by `⊥ : WithBot ℚ`. -/
structure EvaluationResult where
  score : ℚ
  episodes : Nat
  success_rate : ℚ
  best_episode_score : WithBot ℚ
  avg_episode_length : ℚ
deriving DecidableEq, Repr

/-- Python true division: raises `ZeroDivisionError` on a zero divisor. -/
def pydiv (a b : ℚ) : Except String ℚ :=
  if b = 0 then .error "ZeroDivisionError" else .ok (a / b)

/-- The inner while-loop of `evaluate` (game.py lines 190-195): steps the
environment until done, accumulating reward and step count.  The policy and
simulator are abstracted by the episode's per-step reward list `rs`; the
result is `(episode_score, episode_length)`. -/
def runEpisode (rs : List ℚ) : ℚ × Nat :=
  rs.foldl (fun acc r => (acc.1 + r, acc.2 + 1)) (0, 0)

/-- Mutable locals of `evaluate`'s outer loop (game.py lines 179-182). -/
structure EvalLoopState where
  total_score : ℚ
  episode_lengths : List Nat
  best_score : WithBot ℚ
  successes : Nat
deriving DecidableEq, Repr

/-- One iteration of `evaluate`'s outer `for episode in range(episodes)` loop
(game.py lines 184-201): run the episode, then accumulate the total score,
append the episode length, update the best score, and count the episode as a
success when its score exceeds 100. -/
def evalStep (s : EvalLoopState) (rs : List ℚ) : EvalLoopState :=
  let res := runEpisode rs
  { total_score := s.total_score + res.1
    episode_lengths := s.episode_lengths ++ [res.2]
    best_score := max s.best_score (res.1 : WithBot ℚ)
    successes := if res.1 > 100 then s.successes + 1 else s.successes }

/-- `SpaceInvadersGame.evaluate` (game.py lines 172-209), with the environment
and model abstracted by `env_steps`, giving each episode's per-step reward
list.  After the loop, the aggregation divides `total_score` and `successes`
by `episodes` and the summed lengths by `len(episode_lengths)` with no guard,
so any zero divisor raises `ZeroDivisionError` (Python evaluates the `score`
argument first). -/
def evaluate (episodes : Nat) (env_steps : Nat → List ℚ) :
    Except String EvaluationResult := do
  let init : EvalLoopState := ⟨0, [], ⊥, 0⟩
  let s := (List.range episodes).foldl (fun st i => evalStep st (env_steps i)) init
  let score ← pydiv s.total_score (episodes : ℚ)
  let success_rate ← pydiv (s.successes : ℚ) (episodes : ℚ)
  let avg ← pydiv ((s.episode_lengths.map fun k : Nat => (k : ℚ)).sum)
      ((s.episode_lengths.length : ℚ))
  .ok { score := score, episodes := episodes, success_rate := success_rate,
        best_episode_score := s.best_score, avg_episode_length := avg }

/-- `GameConfig` (from `cli.games.base`): the flat record of training
hyperparameters returned by `get_default_config` / `load_config`. -/
structure GameConfig where
  total_timesteps : Nat
  learning_rate : ℚ
  buffer_size : Nat
  learning_starts : Nat
  batch_size : Nat
  exploration_fraction : ℚ
  target_update_interval : Nat
  frame_stack : Nat
deriving DecidableEq, Repr

/-- `SpaceInvadersGame.get_default_config` (game.py lines 70-81). -/
def get_default_config : GameConfig :=
  { total_timesteps := 1000000
    learning_rate := 25 / 100000
    buffer_size := 250000
    learning_starts := 50000
    batch_size := 256
    exploration_fraction := 2 / 10
    target_update_interval := 2000
    frame_stack := 4 }

/-- The arguments `train` passes to the `DQN` constructor
(game.py lines 120-141): every one of them is a hardcoded literal. -/
structure DQNParams where
  policy : String
  learning_rate : ℚ
  buffer_size : Nat
  learning_starts : Nat
  batch_size : Nat
  exploration_fraction : ℚ
  target_update_interval : Nat
  tensorboard_log : String
  train_freq : Nat
  gradient_steps : Nat
  exploration_initial_eps : ℚ
  exploration_final_eps : ℚ
  max_grad_norm : Nat
  net_arch : List Nat
  normalize_images : Bool
deriving DecidableEq, Repr

/-- Everything observable that `SpaceInvadersGame.train` sets up: the
vectorized environments, the vectorized frame-stack depth, the agent's
constructor arguments, the length of the training loop, and the path the
model is saved to. -/
structure TrainPlan where
  num_envs : Nat
  env : Env
  vec_frame_stack : Nat
  dqn : DQNParams
  total_timesteps : Nat
  model_path : String
deriving DecidableEq, Repr

/-- `SpaceInvadersGame.train` (game.py lines 111-170), taking the already
loaded configuration object (`self.load_config(config_path)`) as input.  The
config's only use is `config.frame_stack` at the `VecFrameStack` call; every
DQN hyperparameter is a hardcoded literal, and `total_timesteps` is fixed at
250000 (line 144). -/
def train (render : Bool) (config : GameConfig) : TrainPlan :=
  { num_envs := 4
    env := _make_env render false
    vec_frame_stack := config.frame_stack
    dqn :=
      { policy := "CnnPolicy"
        learning_rate := 1 / 10000
        buffer_size := 50000
        learning_starts := 1000
        batch_size := 32
        exploration_fraction := 1 / 10
        target_update_interval := 1000
        tensorboard_log := "./tensorboard/space_invaders"
        train_freq := 4
        gradient_steps := 1
        exploration_initial_eps := 1
        exploration_final_eps := 5 / 100
        max_grad_norm := 10
        net_arch := [256, 128]
        normalize_images := true }
    total_timesteps := 250000
    model_path := "models/space_invaders_final.zip" }

/-- `SpaceInvadersGame.validate_model` (game.py lines 211-219): builds an
environment and loads the model against it inside `try`, returning `True` on
success; any exception from either step is caught, logged and converted to
`False`.  The two fallible external steps (`DummyVecEnv` construction over
`_make_env()`, and `DQN.load`) are abstracted by their outcomes. -/
def validate_model (env_ctor : Except String Env)
    (dqn_load : Env → Except String Unit) : Bool :=
  match env_ctor with
  | .error _ => false
  | .ok env =>
      match dqn_load env with
      | .error _ => false
      | .ok _ => true

/-- The errors `stake` can raise: one per precondition failure
(game.py lines 223-235), plus the `NameError` raised at line 238, where the
bare name `stake_on_game` is resolved — the optional import at lines 19-24
brings in only `NEARWallet` and `StakeRecord`, and nothing else in the
module binds `stake_on_game`. -/
inductive StakeError
  | featureUnavailable
  | notLoggedIn
  | invalidModel
  | outOfRange
  | nameError (name : String)
deriving DecidableEq, Repr

/-- The NEAR wallet, abstracted to its synchronous login-state check. -/
structure Wallet where
  logged_in : Bool
deriving DecidableEq, Repr

/-- The keyword arguments the call site at game.py lines 238-245 spells out
for the external `stake_on_game` coroutine. -/
structure StakeCall where
  wallet : Wallet
  game_name : String
  model_path : String
  amount : ℚ
  target_score : ℚ
  score_range : ℚ × ℚ
deriving DecidableEq, Repr

/-- Observable side effects of one `stake` call: how many times the
validator (`self.validate_model`) ran, and which external staking calls were
issued. -/
structure StakeEffects where
  validator_calls : Nat
  external_calls : List StakeCall
deriving DecidableEq, Repr

/-- `SpaceInvadersGame.stake` (game.py lines 221-245).  Guards in source
order: `NEAR_AVAILABLE`, `wallet.is_logged_in()`, `self.validate_model(...)`,
then range membership of the target score in `score_range`; the first failed
guard raises and nothing after it runs.  When all guards pass, line 238
evaluates `await stake_on_game(...)` — but `stake_on_game` is an unbound
name (lines 19-24 import only `NEARWallet` and `StakeRecord`), and Python
resolves the callable before evaluating any argument, so the call raises
`NameError` and no external staking call is ever issued.  The would-be
external collaborator `ext` is kept as a parameter so theorems can state
that it is never invoked.  Returns the side-effect trace and the result. -/
def stake (near_available : Bool) (validator : String → Bool)
    (ext : StakeCall → Except StakeError Unit)
    (wallet : Wallet) (model_path : String) (amount target_score : ℚ) :
    StakeEffects × Except StakeError Unit :=
  if near_available = false then
    (⟨0, []⟩, .error .featureUnavailable)
  else if wallet.logged_in = false then
    (⟨0, []⟩, .error .notLoggedIn)
  else if validator model_path = false then
    (⟨1, []⟩, .error .invalidModel)
  else
    let min_score := score_range.1
    let max_score := score_range.2
    if ¬ (min_score ≤ target_score ∧ target_score ≤ max_score) then
      (⟨1, []⟩, .error .outOfRange)
    else
      (⟨1, []⟩, .error (.nameError "stake_on_game"))

lemma runEpisode_foldl (rs : List ℚ) (a : ℚ) (b : Nat) :
    rs.foldl (fun acc r => (acc.1 + r, acc.2 + 1)) (a, b) = (a + rs.sum, b + rs.length) := by
  induction rs generalizing a b with
  | nil => simp
  | cons x xs ih =>
      rw [List.foldl_cons, ih, List.sum_cons, List.length_cons]
      exact Prod.ext (by ring) (by omega)

lemma runEpisode_eq (rs : List ℚ) : runEpisode rs = (rs.sum, rs.length) := by
  rw [runEpisode, runEpisode_foldl]
  simp

lemma evalStep_eq (s : EvalLoopState) (rs : List ℚ) :
    evalStep s rs =
      { total_score := s.total_score + rs.sum
        episode_lengths := s.episode_lengths ++ [rs.length]
        best_score := max s.best_score (rs.sum : WithBot ℚ)
        successes := if rs.sum > 100 then s.successes + 1 else s.successes } := by
  rw [evalStep, runEpisode_eq]

lemma evalLoop_successes (f : Nat → List ℚ) (l : List Nat) (init : EvalLoopState) :
    (l.foldl (fun st i => evalStep st (f i)) init).successes =
      init.successes + (l.countP fun i => decide (100 < (f i).sum)) := by
  induction l generalizing init with
  | nil => simp
  | cons x xs ih =>
      rw [List.foldl_cons, ih, List.countP_cons, evalStep_eq]
      by_cases h : 100 < (f x).sum
      · simp [h]
        omega
      · simp [h]

lemma evalLoop_lengths (f : Nat → List ℚ) (l : List Nat) (init : EvalLoopState) :
    (l.foldl (fun st i => evalStep st (f i)) init).episode_lengths =
      init.episode_lengths ++ l.map (fun i => (f i).length) := by
  induction l generalizing init with
  | nil => simp
  | cons x xs ih =>
      rw [List.foldl_cons, ih, evalStep_eq, List.map_cons]
      simp

lemma countP_range_eq_card (n : Nat) (p : Nat → Prop) [DecidablePred p] :
    (List.range n).countP (fun i => decide (p i)) =
      ((Finset.range n).filter p).card := by
  induction n with
  | zero => simp
  | succ m ih =>
      rw [List.range_succ, List.countP_append, Finset.range_succ, Finset.filter_insert]
      by_cases h : p m
      · rw [if_pos h, Finset.card_insert_of_not_mem (by simp)]
        simp [h, ih]
      · rw [if_neg h]
        simp [h, ih]

lemma sum_map_range (n : Nat) (g : Nat → ℚ) :
    ((List.range n).map g).sum = ∑ i in Finset.range n, g i := by
  induction n with
  | zero => simp
  | succ m ih =>
      rw [List.range_succ, List.map_append, List.sum_append, Finset.sum_range_succ, ih]
      simp

lemma evaluate_eq_ok (n : Nat) (f : Nat → List ℚ) (S0 : EvalLoopState)
    (hfold : (List.range n).foldl (fun st i => evalStep st (f i))
      (⟨0, [], ⊥, 0⟩ : EvalLoopState) = S0)
    (hn : ((n : ℚ)) ≠ 0) (hl : ((S0.episode_lengths.length : ℚ)) ≠ 0) :
    evaluate n f = .ok
      { score := S0.total_score / n
        episodes := n
        success_rate := (S0.successes : ℚ) / n
        best_episode_score := S0.best_score
        avg_episode_length :=
          ((S0.episode_lengths.map fun k : Nat => (k : ℚ)).sum) /
            (S0.episode_lengths.length : ℚ) } := by
  rw [evaluate]
  simp only [hfold]
  simp [pydiv, hn, hl]
  rfl

lemma evaluate_ok_spec (n : Nat) (f : Nat → List ℚ) (h : n ≠ 0) :
    ∃ r, evaluate n f = .ok r ∧ r.episodes = n ∧
      r.success_rate =
        (((List.range n).countP fun i => decide (100 < (f i).sum)) : ℚ) / n ∧
      r.avg_episode_length =
        (((List.range n).map fun i => ((f i).length : ℚ)).sum) / n := by
  have hn : ((n : ℚ)) ≠ 0 := Nat.cast_ne_zero.mpr h
  obtain ⟨S0, hfold⟩ :
      ∃ S0, (List.range n).foldl (fun st i => evalStep st (f i))
        (⟨0, [], ⊥, 0⟩ : EvalLoopState) = S0 := ⟨_, rfl⟩
  have hlen : S0.episode_lengths = (List.range n).map fun i => (f i).length := by
    rw [← hfold, evalLoop_lengths]
    simp
  have hlenlen : S0.episode_lengths.length = n := by
    rw [hlen]
    simp
  have hsucc : S0.successes = (List.range n).countP fun i => decide (100 < (f i).sum) := by
    rw [← hfold, evalLoop_successes]
    simp
  have hl : ((S0.episode_lengths.length : ℚ)) ≠ 0 := by
    rw [hlenlen]
    exact hn
  refine ⟨_, evaluate_eq_ok n f S0 hfold hn hl, rfl, ?_, ?_⟩
  · simp only [hsucc]
  · simp only [hlen, List.map_map]
    simp
    rfl

/-- C1: for every target score outside the closed interval [0, 1000], a call
to `stake` with staking available, a logged-in wallet and a valid model
raises the out-of-range error, and the external staking collaborator is
never invoked (no external call is recorded, for every possible external
collaborator `ext`). -/
theorem stake_out_of_range_rejects (validator : String → Bool)
    (ext : StakeCall → Except StakeError Unit) (w : Wallet) (p : String)
    (amount t : ℚ) (hlog : w.logged_in = true) (hval : validator p = true)
    (ht : ¬ (0 ≤ t ∧ t ≤ 1000)) :
    (stake true validator ext w p amount t).2 = .error .outOfRange ∧
    (stake true validator ext w p amount t).1.external_calls = [] := by
  have ht2 : 0 ≤ t → 1000 < t := by
    push_neg at ht
    exact ht
  rw [stake]
  simp [hlog, hval, score_range]
  rw [if_pos ht2]
  exact ⟨rfl, rfl⟩

/-- C1 witness: at target score 1001 with all other preconditions satisfied,
`stake` returns the out-of-range error without any external call. -/
theorem stake_out_of_range_rejects_witness :
    (⟨true⟩ : Wallet).logged_in = true ∧
    ((fun _ : String => true) "m.zip") = true ∧
    ¬ ((0 : ℚ) ≤ 1001 ∧ (1001 : ℚ) ≤ 1000) ∧
    ((stake true (fun _ => true) (fun _ => .ok ()) ⟨true⟩ "m.zip" 2 1001).2 =
        .error .outOfRange ∧
      (stake true (fun _ => true) (fun _ => .ok ()) ⟨true⟩ "m.zip" 2 1001).1.external_calls = []) :=
  ⟨rfl, rfl, by norm_num,
    stake_out_of_range_rejects (fun _ => true) (fun _ => .ok ()) ⟨true⟩ "m.zip" 2 1001
      rfl rfl (by norm_num)⟩

/-- C2: the claim that a fully satisfied `stake` call forwards the request
to the external staking function fails on the code: `stake_on_game` is
never imported or defined (lines 19-24 import only `NEARWallet` and
`StakeRecord`), so once all four guards pass, line 238 raises `NameError`
— for every possible external collaborator `ext`, no external call is
issued and the result is the name error, not a forwarded await. -/
theorem stake_success_raises_name_error (validator : String → Bool)
    (ext : StakeCall → Except StakeError Unit) (w : Wallet) (p : String)
    (amount t : ℚ) (hlog : w.logged_in = true) (hval : validator p = true)
    (ht : 0 ≤ t ∧ t ≤ 1000) :
    (stake true validator ext w p amount t).2 =
      .error (.nameError "stake_on_game") ∧
    (stake true validator ext w p amount t).1.external_calls = [] := by
  rw [stake]
  simp [hlog, hval, score_range, ht.1, ht.2]

/-- C2 witness: a call satisfying every precondition at target score 500
raises the name error and issues no external call. -/
theorem stake_success_raises_name_error_witness :
    (⟨true⟩ : Wallet).logged_in = true ∧
    ((fun _ : String => true) "m.zip") = true ∧
    ((0 : ℚ) ≤ 500 ∧ (500 : ℚ) ≤ 1000) ∧
    ((stake true (fun _ => true) (fun _ => .ok ()) ⟨true⟩ "m.zip" 2 500).2 =
        .error (.nameError "stake_on_game") ∧
      (stake true (fun _ => true) (fun _ => .ok ()) ⟨true⟩ "m.zip" 2 500).1.external_calls = []) :=
  ⟨rfl, rfl, by norm_num,
    stake_success_raises_name_error (fun _ => true) (fun _ => .ok ()) ⟨true⟩ "m.zip" 2 500
      rfl rfl (by norm_num)⟩

/-- C5: with staking available and a logged-out wallet, `stake` raises the
not-logged-in error having invoked the Validator zero times — for every
possible validator, so the outcome is independent of it. -/
theorem stake_not_logged_in_skips_validator (validator : String → Bool)
    (ext : StakeCall → Except StakeError Unit) (w : Wallet) (p : String)
    (amount t : ℚ) (h : w.logged_in = false) :
    (stake true validator ext w p amount t).2 = .error .notLoggedIn ∧
    (stake true validator ext w p amount t).1.validator_calls = 0 := by
  rw [stake]
  simp [h]

/-- C5 witness: a logged-out wallet yields the not-logged-in error with the
validator never called. -/
theorem stake_not_logged_in_skips_validator_witness :
    (⟨false⟩ : Wallet).logged_in = false ∧
    ((stake true (fun _ => false) (fun _ => .ok ()) ⟨false⟩ "m.zip" 2 500).2 =
        .error .notLoggedIn ∧
      (stake true (fun _ => false) (fun _ => .ok ()) ⟨false⟩ "m.zip" 2 500).1.validator_calls = 0) :=
  ⟨rfl,
    stake_not_logged_in_skips_validator (fun _ => false) (fun _ => .ok ()) ⟨false⟩
      "m.zip" 2 500 rfl⟩

/-- C6: `validate_model` is a total boolean function of the outcomes of
environment construction and model loading: it returns `true` exactly when
both external steps succeed, so every exception from either step is
converted to `false` and validation never raises. -/
theorem validate_model_never_raises (env_ctor : Except String Env)
    (dqn_load : Env → Except String Unit) :
    validate_model env_ctor dqn_load = true ↔
      ∃ env, env_ctor = .ok env ∧ dqn_load env = .ok () := by
  cases env_ctor with
  | error e => simp [validate_model]
  | ok env =>
      cases h : dqn_load env with
      | error msg => simp [validate_model, h]
      | ok u => simp [validate_model, h]

/-- C6 witness: validation of a model whose environment construction fails
(e.g. a nonexistent file) evaluates to `false`, not an exception. -/
theorem validate_model_never_raises_witness :
    (validate_model (.error "FileNotFoundError") (fun _ => .ok ()) = true ↔
      ∃ env, (.error "FileNotFoundError" : Except String Env) = .ok env ∧
        (fun _ : Env => (.ok () : Except String Unit)) env = .ok ()) :=
  validate_model_never_raises (.error "FileNotFoundError") (fun _ => .ok ())

/-- C4: two configurations agreeing on `frame_stack` give identical training
setups — the configuration influences `train` only through its
`frame_stack` field — and the training loop length is fixed at 250000
timesteps regardless of the configuration's `total_timesteps`. -/
theorem train_uses_only_frame_stack (render : Bool) (c₁ c₂ : GameConfig)
    (h : c₁.frame_stack = c₂.frame_stack) :
    train render c₁ = train render c₂ ∧
    (train render c₁).total_timesteps = 250000 := by
  constructor
  · simp [train, h]
  · rfl

/-- C4 witness: the default configuration and a variant with a different
learning rate and a different `total_timesteps` (but equal `frame_stack`)
produce the same training plan, with a 250000-step loop. -/
theorem train_uses_only_frame_stack_witness :
    get_default_config.frame_stack =
      ({ get_default_config with learning_rate := 1, total_timesteps := 7 } :
        GameConfig).frame_stack ∧
    (train false get_default_config =
        train false { get_default_config with learning_rate := 1, total_timesteps := 7 } ∧
      (train false get_default_config).total_timesteps = 250000) :=
  ⟨rfl, train_uses_only_frame_stack false get_default_config
    { get_default_config with learning_rate := 1, total_timesteps := 7 } rfl⟩

/-- C3: the claim that the environment `evaluate` constructs is
non-rendering and recording exactly when the `record` flag is set fails on
the code: `evaluate` passes `record` positionally into `_make_env`'s
`render` parameter (game.py line 174), so with `record = true` the single
environment is human-rendering and not recording (and with
`record = false` it is neither). -/
theorem evaluate_env_record_enables_rendering :
    (evaluate_env true).isHumanRendering = true ∧
    (evaluate_env true).isRecording = false ∧
    (evaluate_env false).isHumanRendering = false ∧
    (evaluate_env false).isRecording = false :=
  ⟨rfl, rfl, rfl, rfl⟩

/-- C9: for every combination of the render and record flags, the
environment built by `_make_env` yields observations shaped as 4 stacked
84×84 single-channel frames, with resize → grayscale → frame-stack as the
final (consecutive) observation pipeline. -/
theorem make_env_obs_shape (render record : Bool) :
    obs_shape (_make_env render record) = [4, 84, 84] ∧
    List.IsInfix
      [Wrapper.resizeObservation 84 84, Wrapper.grayscaleObservation false,
        Wrapper.frameStackObservation 4] (_make_env render record).wrappers := by
  cases render <;> cases record
  · exact ⟨rfl, ⟨[Wrapper.noopReset 30, Wrapper.maxAndSkip 4, Wrapper.episodicLife,
      Wrapper.fireReset, Wrapper.clipReward], [], rfl⟩⟩
  · exact ⟨rfl, ⟨[Wrapper.noopReset 30, Wrapper.maxAndSkip 4, Wrapper.episodicLife,
      Wrapper.fireReset, Wrapper.clipReward],
      [Wrapper.recordVideo "videos/training"], rfl⟩⟩
  · exact ⟨rfl, ⟨[Wrapper.noopReset 30, Wrapper.maxAndSkip 4, Wrapper.episodicLife,
      Wrapper.fireReset, Wrapper.clipReward], [], rfl⟩⟩
  · exact ⟨rfl, ⟨[Wrapper.noopReset 30, Wrapper.maxAndSkip 4, Wrapper.episodicLife,
      Wrapper.fireReset, Wrapper.clipReward], [], rfl⟩⟩

/-- C7: for every `evaluate` call with at least one episode, the returned
`success_rate` is the number of episodes whose accumulated score exceeds
100, divided by the episode count; in particular it is 0 when no episode's
score exceeds 100. -/
theorem evaluate_success_rate (n : Nat) (f : Nat → List ℚ) (h : 1 ≤ n) :
    ∃ r, evaluate n f = .ok r ∧
      r.success_rate =
        ((((Finset.range n).filter fun i => 100 < (f i).sum).card : ℚ)) / n ∧
      ((∀ i < n, (f i).sum ≤ 100) → r.success_rate = 0) := by
  obtain ⟨r, hr, -, hsr, -⟩ := evaluate_ok_spec n f (Nat.one_le_iff_ne_zero.mp h)
  refine ⟨r, hr, ?_, ?_⟩
  · rw [hsr, countP_range_eq_card]
  · intro hall
    rw [hsr]
    have hz : (List.range n).countP (fun i => decide (100 < (f i).sum)) = 0 := by
      rw [List.countP_eq_zero]
      intro a ha
      rw [List.mem_range] at ha
      simp [not_lt.mpr (hall a ha)]
    rw [hz]
    simp

/-- C7 witness: two episodes with scores 201 and 3 give success rate 1/2,
and two episodes with scores 3 and 3 give success rate 0. -/
theorem evaluate_success_rate_witness :
    (1 ≤ 2) ∧
    (∃ r, evaluate 2 (fun i => if i = 0 then [200, 1] else [3]) = .ok r ∧
      r.success_rate =
        ((((Finset.range 2).filter fun i =>
          100 < ((fun j => if j = 0 then [200, 1] else [(3 : ℚ)]) i).sum).card : ℚ)) / 2 ∧
      ((∀ i < 2, ((fun j => if j = 0 then [200, 1] else [(3 : ℚ)]) i).sum ≤ 100) →
        r.success_rate = 0)) :=
  ⟨by decide, evaluate_success_rate 2 (fun i => if i = 0 then [200, 1] else [3]) (by decide)⟩

/-- C8: for every `evaluate` call with at least one episode, the returned
`avg_episode_length` is the arithmetic mean of the per-episode step counts
recorded during the call. -/
theorem evaluate_avg_episode_length (n : Nat) (f : Nat → List ℚ) (h : 1 ≤ n) :
    ∃ r, evaluate n f = .ok r ∧
      r.avg_episode_length = (∑ i in Finset.range n, (((f i).length : ℚ))) / n := by
  obtain ⟨r, hr, -, -, havg⟩ := evaluate_ok_spec n f (Nat.one_le_iff_ne_zero.mp h)
  refine ⟨r, hr, ?_⟩
  rw [havg, sum_map_range]

/-- C8 witness: episodes of 2 and 1 steps average to 3/2. -/
theorem evaluate_avg_episode_length_witness :
    (1 ≤ 2) ∧
    (∃ r, evaluate 2 (fun i => if i = 0 then [200, 1] else [3]) = .ok r ∧
      r.avg_episode_length =
        (∑ i in Finset.range 2,
          ((((fun j => if j = 0 then [200, 1] else [(3 : ℚ)]) i).length : ℚ))) / 2) :=
  ⟨by decide, evaluate_avg_episode_length 2 (fun i => if i = 0 then [200, 1] else [3]) (by decide)⟩

/-- C10: `evaluate` with an episode count of 0 never returns an
`EvaluationResult`: the unguarded aggregation divides by the episode count,
so the `ZeroDivisionError` branch is reached. -/
theorem evaluate_zero_episodes_raises (f : Nat → List ℚ) :
    evaluate 0 f = .error "ZeroDivisionError" := by
  rw [evaluate]
  simp [pydiv]
  rfl

end SpaceInvaders
